import Mathlib

/-!
Verification of the core logic of `app.py` from the repository
`resumo_valor_liberar_cdp`: a shallow embedding of the reference-date
resolution (`data_cotacao`), the PTAX rate lookup with a 5-day backward
retry window (`cotacao_bacen`), and the filter/aggregate/convert pipeline
(`processar_csv`), together with theorems about the spec's claims.

Conventions of the embedding:
* Python `datetime` values are modelled as `DateTime` (year, month, day,
  and a time-of-day component `tempo`, with `tempo = 0` meaning midnight);
  pure calendar dates (`datetime` at midnight) are modelled as `Date`.
* Python floats are modelled as `ℚ`; the dynamically-typed values that
  `cotacao_bacen` returns in its first component (a float or a string)
  are modelled by the sum type `Val`.
* The external PTAX endpoint (`ep_cotacao.query()...collect()`) is an
  explicit collaborator `Provider : Date → Except Unit (List Boletim)`;
  `Except.error` models any raised exception (caught by the `try` block).
* The `MM/DD/YYYY` string plumbing between `data_cotacao` and
  `cotacao_bacen` round-trips through `strftime`/`strptime`, so dates are
  passed directly as `Date` values.
-/

/-- A calendar date (`datetime` at midnight / `date`): year, month, day. -/
structure Date where
  ano : ℕ
  mes : ℕ
  dia : ℕ
deriving DecidableEq, Repr

/-- A Python `datetime`: a date plus a time-of-day component `tempo`
(`tempo = 0` is midnight; any positive value stands for a later moment of
the day, as produced by `datetime.today()`). -/
structure DateTime where
  ano : ℕ
  mes : ℕ
  dia : ℕ
  tempo : ℕ
deriving DecidableEq, Repr

/-- Lexicographic comparison of `datetime` values, as Python compares them. -/
def dtLe (a b : DateTime) : Bool :=
  (a.ano < b.ano) ||
    (a.ano == b.ano &&
      ((a.mes < b.mes) ||
        (a.mes == b.mes &&
          ((a.dia < b.dia) ||
            (a.dia == b.dia && decide (a.tempo ≤ b.tempo))))))

/-- Gregorian leap-year test (`calendar`-style, as `datetime` uses). -/
def bissexto (a : ℕ) : Bool :=
  (a % 4 == 0 && a % 100 != 0) || a % 400 == 0

/-- Number of days of month `m` of year `a`. -/
def diasNoMes (a m : ℕ) : ℕ :=
  match m with
  | 1 => 31
  | 2 => if bissexto a then 29 else 28
  | 3 => 31
  | 4 => 30
  | 5 => 31
  | 6 => 30
  | 7 => 31
  | 8 => 31
  | 9 => 30
  | 10 => 31
  | 11 => 30
  | 12 => 31
  | _ => 0

/-- Days of year `a` that precede the first day of month `m`. -/
def diasAntesMes (a m : ℕ) : ℕ :=
  match m with
  | 1 => 0
  | 2 => 31
  | 3 => 31 + (if bissexto a then 29 else 28)
  | 4 => 62 + (if bissexto a then 29 else 28)
  | 5 => 92 + (if bissexto a then 29 else 28)
  | 6 => 123 + (if bissexto a then 29 else 28)
  | 7 => 153 + (if bissexto a then 29 else 28)
  | 8 => 184 + (if bissexto a then 29 else 28)
  | 9 => 215 + (if bissexto a then 29 else 28)
  | 10 => 245 + (if bissexto a then 29 else 28)
  | 11 => 276 + (if bissexto a then 29 else 28)
  | 12 => 306 + (if bissexto a then 29 else 28)
  | _ => 337 + (if bissexto a then 29 else 28)

/-- Days that precede January 1 of year `a` in the proleptic Gregorian
calendar (year 1 is the first year, as in Python's `datetime`). -/
def diasAntesAno (a : ℕ) : ℕ :=
  365 * (a - 1) + (a - 1) / 4 + (a - 1) / 400 - (a - 1) / 100

/-- Rata-die day number of a date: `rataDie ⟨1, 1, 1⟩ = 1`. -/
def rataDie (d : Date) : ℕ :=
  diasAntesAno d.ano + diasAntesMes d.ano d.mes + d.dia

/-- Python's `datetime.weekday()`: Monday = 0, ..., Sunday = 6
(January 1 of year 1 was a Monday in the proleptic Gregorian calendar). -/
def weekday (d : Date) : ℕ :=
  (rataDie d + 6) % 7

/-- The calendar day before `d` (`d - timedelta(days=1)`). -/
def anterior (d : Date) : Date :=
  if 2 ≤ d.dia then ⟨d.ano, d.mes, d.dia - 1⟩
  else if 2 ≤ d.mes then ⟨d.ano, d.mes - 1, diasNoMes d.ano (d.mes - 1)⟩
  else ⟨d.ano - 1, 12, 31⟩

/-- `d - timedelta(days=n)`. -/
def subDays (d : Date) : ℕ → Date
  | 0 => d
  | n + 1 => anterior (subDays d n)

/-- A well-formed calendar date, i.e. one that `datetime` / `strptime`
with format `%m/%d/%Y` accepts. -/
def ValidDate (d : Date) : Prop :=
  1 ≤ d.ano ∧ 1 ≤ d.mes ∧ d.mes ≤ 12 ∧ 1 ≤ d.dia ∧ d.dia ≤ diasNoMes d.ano d.mes

instance (d : Date) : Decidable (ValidDate d) := by
  unfold ValidDate; infer_instance

/-- One bimonthly RREO window: (start month/day, end month/day,
reference month/day for the quotation date). -/
structure Intervalo where
  ini : ℕ × ℕ
  fim : ℕ × ℕ
  ref : ℕ × ℕ
deriving DecidableEq, Repr

/-- The constant `INTERVALOS_RREO` of `app.py` (lines 41-48). -/
def INTERVALOS_RREO : List Intervalo :=
  [⟨(3, 30), (5, 29), (2, 28)⟩,
   ⟨(5, 30), (7, 29), (4, 30)⟩,
   ⟨(7, 30), (9, 29), (6, 30)⟩,
   ⟨(9, 30), (11, 29), (8, 31)⟩,
   ⟨(11, 30), (1, 29), (10, 31)⟩,
   ⟨(1, 30), (3, 29), (12, 31)⟩]

/-- Concretisation of a window for year `ano` (lines 119-124 of
`data_cotacao`): start and end as midnight datetimes; the end year is
advanced by one when the window wraps (start month not less than end month). -/
def concretiza (ano : ℕ) (w : Intervalo) : DateTime × DateTime :=
  if w.ini.1 < w.fim.1 then
    (⟨ano, w.ini.1, w.ini.2, 0⟩, ⟨ano, w.fim.1, w.fim.2, 0⟩)
  else
    (⟨ano, w.ini.1, w.ini.2, 0⟩, ⟨ano + 1, w.fim.1, w.fim.2, 0⟩)

/-- The membership test `ini <= hoje <= fim_periodo` (line 127). -/
def pertence (w : Intervalo) (hoje : DateTime) : Bool :=
  dtLe (concretiza hoje.ano w).1 hoje && dtLe hoje (concretiza hoje.ano w).2

/-- The `for ... break` scan over `INTERVALOS_RREO` (lines 113-131):
the first window containing `hoje`, if any. -/
def acheIntervalo (hoje : DateTime) : Option Intervalo :=
  INTERVALOS_RREO.find? (fun w => pertence w hoje)

/-- The raw (pre-weekend-adjustment) reference date `data_base`
(lines 128-135): the matched window's reference month/day in the current
year (previous year when the reference month is December), or the
fallback February 28 of the current year when no window matches. -/
def dataBase (hoje : DateTime) : Date :=
  match acheIntervalo hoje with
  | some w => ⟨if w.ref.1 = 12 then hoje.ano - 1 else hoje.ano, w.ref.1, w.ref.2⟩
  | none => ⟨hoje.ano, 2, 28⟩

/-- The `while data_base.weekday() >= 5: data_base -= timedelta(days=1)`
loop (lines 137-139), with explicit fuel.  The loop needs at most two
iterations (a weekend has two days), so any fuel `≥ 2` computes the
loop's result; `7` is used. -/
def ajusteFuel : ℕ → Date → Date
  | 0, d => d
  | n + 1, d => if 5 ≤ weekday d then ajusteFuel n (anterior d) else d

/-- `data_cotacao` (lines 101-143), parametrised by today's datetime:
raw reference date from the RREO windows, then moved back to a weekday. -/
def data_cotacao (hoje : DateTime) : Date :=
  ajusteFuel 7 (dataBase hoje)

/-- A dynamically-typed Python value as appears in the results and the
summary cells: either a number (float) or a string. -/
inductive Val where
  | num (q : ℚ)
  | str (s : String)
deriving DecidableEq, Repr

/-- One quotation record returned by the PTAX endpoint for a day. -/
structure Boletim where
  tipoBoletim : String
  cotacaoVenda : ℚ
deriving DecidableEq, Repr

/-- The external PTAX endpoint: for a query date it either returns the
day's list of quotation records or raises (models the exception caught by
the `try` of lines 172-189). -/
abbrev Provider := Date → Except Unit (List Boletim)

/-- Selection of the closing records of a day's response
(`df[df['tipoBoletim'] == 'Fechamento PTAX']`, line 178). -/
def fechamentos (df : List Boletim) : List Boletim :=
  df.filter (fun b => b.tipoBoletim == "Fechamento PTAX")

/-- Digit string of `n` left-padded with zeros to width 2. -/
def pad2 (n : ℕ) : String :=
  if n < 10 then "0" ++ toString n else toString n

/-- Digit string of `n` left-padded with zeros to width 4. -/
def pad4 (n : ℕ) : String :=
  if n < 10 then "000" ++ toString n
  else if n < 100 then "00" ++ toString n
  else if n < 1000 then "0" ++ toString n
  else toString n

/-- `strftime("%d/%m/%Y")` (line 183). -/
def formatarDMY (d : Date) : String :=
  pad2 d.dia ++ "/" ++ pad2 d.mes ++ "/" ++ pad4 d.ano

/-- `strftime("%m/%d/%Y")` (line 143). -/
def formatarMDY (d : Date) : String :=
  pad2 d.mes ++ "/" ++ pad2 d.dia ++ "/" ++ pad4 d.ano

/-- Does a day's provider response yield no closing record?  True when the
call raised (error absorbed by `except`, line 187) and when the returned
frame has no `Fechamento PTAX` row (lines 176-180). -/
def semFechamento : Except Unit (List Boletim) → Bool
  | .error _ => true
  | .ok df => (fechamentos df).isEmpty

/-- The `for i in range(5)` backward-retry loop of `cotacao_bacen`
(lines 169-192): try `data_ref - i` days for `i = 0, 1, 2, ...`; on the
first day whose response contains closing records, return the last such
record's sell rate and that day formatted `DD/MM/YYYY`; when the tries
are exhausted return `("-", "-")`. -/
def tentaDias (P : Provider) (dataRef : Date) : ℕ → ℕ → Val × String
  | _, 0 => (Val.str "-", "-")
  | i, fuel + 1 =>
    match P (subDays dataRef i) with
    | .error _ => tentaDias P dataRef (i + 1) fuel
    | .ok df =>
      if df.isEmpty then tentaDias P dataRef (i + 1) fuel
      else
        match (fechamentos df).getLast? with
        | none => tentaDias P dataRef (i + 1) fuel
        | some b => (Val.num b.cotacaoVenda, formatarDMY (subDays dataRef i))

/-- `cotacao_bacen` (lines 147-192), parametrised by the provider:
`BRL ↦ (1.0, "")`, `XDR ↦ ("Sem cotação", "-")`, otherwise the 5-day
backward search. -/
def cotacao_bacen (moeda : String) (dataRef : Date) (P : Provider) : Val × String :=
  if moeda == "BRL" then (Val.num 1, "")
  else if moeda == "XDR" then (Val.str "Sem cotação", "-")
  else tentaDias P dataRef 0 5

/-- One row of the input CSV, restricted to the fields the pipeline reads. -/
structure Registro where
  tipo : String
  situacao : String
  valor : ℚ
  moeda : String
deriving DecidableEq, Repr

/-- Lower-casing of a character as Python's `str.lower` acts on the
Latin-1 range (enough for the currency/type/status vocabulary). -/
def minusculaChar (c : Char) : Char :=
  let n := c.toNat
  if (65 ≤ n ∧ n ≤ 90) ∨ (192 ≤ n ∧ n ≤ 222 ∧ n ≠ 215) then Char.ofNat (n + 32)
  else c

/-- Is a character Python whitespace (for `str.strip`)? -/
def espacoChar (c : Char) : Bool :=
  c.toNat == 32 || c.toNat == 9 || c.toNat == 10 ||
    c.toNat == 13 || c.toNat == 11 || c.toNat == 12

/-- `str.strip()`. -/
def pyStrip (s : String) : String :=
  String.mk (((s.data.dropWhile espacoChar).reverse.dropWhile espacoChar).reverse)

/-- `str.lower()`. -/
def pyLower (s : String) : String :=
  String.mk (s.data.map minusculaChar)

/-- `.str.strip().str.lower()` normalisation used by the filter. -/
def normaliza (s : String) : String :=
  pyLower (pyStrip s)

/-- The row filter of `processar_csv` (lines 213-217): loan/financing
type, active status, positive disbursement value. -/
def filtro (r : Registro) : Bool :=
  (normaliza r.tipo == "empréstimo ou financiamento") &&
    (normaliza r.situacao == "vigente") &&
    decide (0 < r.valor)

/-- The constant `MAPA_MOEDAS` of `app.py` (lines 23-29). -/
def MAPA_MOEDAS : List (String × String) :=
  [("Real", "BRL"),
   ("Dólar dos EUA", "USD"),
   ("Euro", "EUR"),
   ("Direito Especial - SDR", "XDR"),
   ("Iene", "JPY")]

/-- Sum of the disbursement values of the records of one currency. -/
def somaMoeda (l : List Registro) (nome : String) : ℚ :=
  ((l.filter (fun r => r.moeda == nome)).map (fun r => r.valor)).sum

/-- Code-point comparison of character lists (Python string `<=`). -/
def charsLe : List Char → List Char → Bool
  | [], _ => true
  | _ :: _, [] => false
  | a :: as, b :: bs =>
    if a.toNat < b.toNat then true
    else if b.toNat < a.toNat then false
    else charsLe as bs

/-- Python string order, used because `groupby` sorts its keys. -/
def strLe (a b : String) : Bool :=
  charsLe a.data b.data

/-- Insertion into a sorted list of strings. -/
def insereStr (s : String) : List String → List String
  | [] => [s]
  | x :: xs => if strLe s x then s :: x :: xs else x :: insereStr s xs

/-- Insertion sort of strings. -/
def ordena : List String → List String
  | [] => []
  | x :: xs => insereStr x (ordena xs)

/-- The `groupby(...).sum()` of lines 226-231 applied to the filtered
records: one `(currency name, summed value)` pair per distinct currency,
keys sorted as pandas sorts group keys. -/
def agrupar (l : List Registro) : List (String × ℚ) :=
  (ordena (l.map (fun r => r.moeda)).dedup).map (fun nome => (nome, somaMoeda l nome))

/-- The aggregation as a mapping from currency name to summed value:
filter, then group by currency, then sum. -/
def agregar (registros : List Registro) (nome : String) : ℚ :=
  somaMoeda (registros.filter filtro) nome

/-- One row of the summary table (`valores` tuples / `df_saida` rows,
lines 259 and 267-270). -/
structure Linha where
  moeda : String
  valorLiberar : Val
  cotacao : Val
  dataUsada : String
  valorBRL : Val
deriving DecidableEq, Repr

/-- The body of the per-currency loop of `processar_csv` (lines 240-259):
skip unmapped currencies; otherwise look the rate up and compute the BRL
value (`"-"` for SDR; `valor * cot` when the rate is a float; the raw
`valor` otherwise). -/
def linhaResumo (P : Provider) (dataRef : Date) (nome : String) (valor : ℚ) :
    Option Linha :=
  match MAPA_MOEDAS.lookup nome with
  | none => none
  | some codigo =>
    some ⟨nome, Val.num valor,
      (cotacao_bacen codigo dataRef P).1,
      (cotacao_bacen codigo dataRef P).2,
      if nome == "Direito Especial - SDR" then Val.str "-"
      else
        match (cotacao_bacen codigo dataRef P).1 with
        | Val.num q => Val.num (valor * q)
        | Val.str _ => Val.num valor⟩

/-- All summary rows of an aggregated list of currencies. -/
def montarLinhas (P : Provider) (dataRef : Date) (prs : List (String × ℚ)) :
    List Linha :=
  prs.filterMap (fun pr => linhaResumo P dataRef pr.1 pr.2)

/-- Numeric content of a cell (strings count as 0; only used where the
filter has already removed the string cells). -/
def valToNum : Val → ℚ
  | .num q => q
  | .str _ => 0

/-- The TOTAL computation of line 273: sum of the `Valor em BRL` column
over the rows whose cell differs from `"-"`. -/
def totalBRL (linhas : List Linha) : ℚ :=
  ((linhas.filter (fun l => !(l.valorBRL == Val.str "-"))).map
    (fun l => valToNum l.valorBRL)).sum

/-- The TOTAL row appended at lines 274-278. -/
def linhaTotal (t : ℚ) : Linha :=
  ⟨"TOTAL", Val.str "", Val.str "", "", Val.num t⟩

/-- `processar_csv` (lines 195-281), parametrised by the provider and by
today's datetime: filter, halt with `None` when nothing survives, group
by currency, build one row per mapped currency, append the TOTAL row. -/
def processar_csv (registros : List Registro) (P : Provider) (hoje : DateTime) :
    Option (List Linha) :=
  if (registros.filter filtro).isEmpty then none
  else
    some (montarLinhas P (data_cotacao hoje) (agrupar (registros.filter filtro)) ++
      [linhaTotal (totalBRL
        (montarLinhas P (data_cotacao hoje) (agrupar (registros.filter filtro))))])

/-- Modelled from the spec's words for claim C2 (not from the source):
the TOTAL the claim prescribes, summing the converted values of exactly
the rows that carry a genuine numeric conversion, excluding the
not-applicable (SDR) rows and the unavailable-rate rows. -/
def totalSegundoSpec (linhas : List Linha) : ℚ :=
  ((linhas.filter (fun l =>
      (match l.cotacao with
       | Val.num _ => true
       | Val.str _ => false) && !(l.moeda == "Direito Especial - SDR"))).map
    (fun l => valToNum l.valorBRL)).sum

/-- The contribution of one aggregated `(currency, value)` pair to the
TOTAL actually computed by the code: 0 when the currency is unmapped or
is SDR, `valor * rate` when the lookup returned a numeric rate, and the
raw `valor` when the rate is unavailable. -/
def contribPair (P : Provider) (dataRef : Date) (nome : String) (valor : ℚ) : ℚ :=
  match MAPA_MOEDAS.lookup nome with
  | none => 0
  | some codigo =>
    if nome == "Direito Especial - SDR" then 0
    else
      match (cotacao_bacen codigo dataRef P).1 with
      | Val.num q => valor * q
      | Val.str _ => valor

/-! ## Helper lemmas -/

/-- Shared counterexample/witness provider: the endpoint raises on every day. -/
def Pfalha : Provider := fun _ => .error ()

/-- Shared witness provider: closing quotation published only 3 days
before February 28 2025, i.e. on February 25 2025. -/
def Pdia3 : Provider := fun dt =>
  if dt == ⟨2025, 2, 25⟩ then .ok [⟨"Fechamento PTAX", 5⟩] else .error ()

theorem weekday_lt7 (d : Date) : weekday d < 7 :=
  Nat.mod_lt _ (by norm_num)

theorem anterior_dia (d : Date) (h : 2 ≤ d.dia) : (anterior d).dia = d.dia - 1 := by
  unfold anterior
  rw [if_pos h]

theorem weekday_anterior (d : Date) (h : 2 ≤ d.dia) :
    weekday (anterior d) = (weekday d + 6) % 7 := by
  unfold anterior
  rw [if_pos h]
  unfold weekday rataDie
  simp only
  omega

theorem ajuste_dia_util (d : Date) (h : 3 ≤ d.dia) : weekday (ajusteFuel 7 d) < 5 := by
  have h7 := weekday_lt7 d
  rcases Nat.lt_or_ge (weekday d) 5 with h5 | h5
  · have e : ajusteFuel 7 d = d := by
      show (if 5 ≤ weekday d then ajusteFuel 6 (anterior d) else d) = d
      rw [if_neg (by omega)]
    rw [e]; exact h5
  · have had : (anterior d).dia = d.dia - 1 := anterior_dia d (by omega)
    have w1 : weekday (anterior d) = (weekday d + 6) % 7 := weekday_anterior d (by omega)
    have e1 : ajusteFuel 7 d = ajusteFuel 6 (anterior d) := by
      show (if 5 ≤ weekday d then ajusteFuel 6 (anterior d) else d) = _
      rw [if_pos h5]
    rcases Nat.eq_or_lt_of_le h5 with h6 | h6
    · have w4 : weekday (anterior d) = 4 := by omega
      have e2 : ajusteFuel 6 (anterior d) = anterior d := by
        show (if 5 ≤ weekday (anterior d) then _ else _) = _
        rw [if_neg (by omega)]
      rw [e1, e2, w4]
      norm_num
    · have w5 : weekday (anterior d) = 5 := by omega
      have w2 : weekday (anterior (anterior d)) = 4 := by
        rw [weekday_anterior (anterior d) (by omega), w1]
        omega
      have e2 : ajusteFuel 6 (anterior d) = ajusteFuel 5 (anterior (anterior d)) := by
        show (if 5 ≤ weekday (anterior d) then _ else _) = _
        rw [if_pos (by omega)]
      have e3 : ajusteFuel 5 (anterior (anterior d)) = anterior (anterior d) := by
        show (if 5 ≤ weekday (anterior (anterior d)) then _ else _) = _
        rw [if_neg (by omega)]
      rw [e1, e2, e3, w2]
      norm_num

theorem dataBase_dia (hoje : DateTime) : 3 ≤ (dataBase hoje).dia := by
  unfold dataBase
  cases hfind : acheIntervalo hoje with
  | none => norm_num
  | some w =>
    have hw : w ∈ INTERVALOS_RREO := List.mem_of_find?_eq_some hfind
    fin_cases hw <;> norm_num

/-! ## Claims C1, C4, C5 -/

/-- Claim C1: the claim asserts that every calendar date is contained in
exactly one of the six concretised bimonthly windows, so that the
fallback branch (raw reference date February 28 of the current year) is
unreachable.  The code contradicts this: evaluating the window scan at
January 15 2025 (midnight) matches no window — the Nov 30 – Jan 29 window
is concretised as Nov 30 2025 … Jan 29 2026, which cannot contain a
January 2025 date — and the fallback reference date February 28 2025 is
taken. -/
theorem c1_fallback_alcancado :
    acheIntervalo ⟨2025, 1, 15, 0⟩ = none ∧
    dataBase ⟨2025, 1, 15, 0⟩ = ⟨2025, 2, 28⟩ ∧
    data_cotacao ⟨2025, 1, 15, 0⟩ = ⟨2025, 2, 28⟩ := by
  refine ⟨by decide, by decide, by decide⟩

/-- Claim C4: for every input datetime, the date returned by
`data_cotacao` falls on Monday–Friday (Python weekday < 5): the raw
reference date is moved backward one day at a time while it falls on
Saturday (5) or Sunday (6). -/
theorem c4_dia_util : ∀ hoje : DateTime, weekday (data_cotacao hoje) < 5 := by
  intro hoje
  unfold data_cotacao
  exact ajuste_dia_util (dataBase hoje) (dataBase_dia hoje)

/-- Claim C5: two datetimes of the same year matched to the same
bimonthly window yield the same raw (pre-weekend-adjustment) reference
date, namely the window's reference month/day in the current year, with
the year decremented by one when the reference month is December. -/
theorem c5_mesma_janela :
    ∀ (h1 h2 : DateTime) (w : Intervalo),
    h1.ano = h2.ano →
    acheIntervalo h1 = some w →
    acheIntervalo h2 = some w →
    dataBase h1 = dataBase h2 ∧
    dataBase h1 = ⟨if w.ref.1 = 12 then h1.ano - 1 else h1.ano, w.ref.1, w.ref.2⟩ := by
  intro h1 h2 w hy e1 e2
  unfold dataBase
  rw [e1, e2]
  refine ⟨?_, rfl⟩
  rw [hy]

/-- Witness for C5 at April 10 2025 and May 1 2025, both inside the
Mar 30 – May 29 window whose reference date is February 28. -/
theorem c5_mesma_janela_witness :
    (⟨2025, 4, 10, 0⟩ : DateTime).ano = (⟨2025, 5, 1, 0⟩ : DateTime).ano ∧
    acheIntervalo ⟨2025, 4, 10, 0⟩ = some ⟨(3, 30), (5, 29), (2, 28)⟩ ∧
    acheIntervalo ⟨2025, 5, 1, 0⟩ = some ⟨(3, 30), (5, 29), (2, 28)⟩ ∧
    (dataBase ⟨2025, 4, 10, 0⟩ = dataBase ⟨2025, 5, 1, 0⟩ ∧
      dataBase ⟨2025, 4, 10, 0⟩ = ⟨2025, 2, 28⟩) :=
  ⟨rfl, by decide, by decide,
    c5_mesma_janela ⟨2025, 4, 10, 0⟩ ⟨2025, 5, 1, 0⟩ ⟨(3, 30), (5, 29), (2, 28)⟩
      rfl (by decide) (by decide)⟩

/-! ## Lemmas about the 5-day backward retry loop -/

theorem getLast?_de_nao_nil : ∀ (l : List Boletim), l ≠ [] → ∃ b, l.getLast? = some b
  | [x], _ => ⟨x, rfl⟩
  | x :: y :: ys, _ => by
    obtain ⟨b, hb⟩ := getLast?_de_nao_nil (y :: ys) (by simp)
    exact ⟨b, hb⟩

theorem tentaDias_succ (P : Provider) (dataRef : Date) (i fuel : ℕ) :
    tentaDias P dataRef i (fuel + 1) =
      match P (subDays dataRef i) with
      | .error _ => tentaDias P dataRef (i + 1) fuel
      | .ok df =>
        if df.isEmpty then tentaDias P dataRef (i + 1) fuel
        else
          match (fechamentos df).getLast? with
          | none => tentaDias P dataRef (i + 1) fuel
          | some b => (Val.num b.cotacaoVenda, formatarDMY (subDays dataRef i)) :=
  rfl

theorem tentaDias_passo (P : Provider) (dataRef : Date) (i fuel : ℕ)
    (h : semFechamento (P (subDays dataRef i)) = true) :
    tentaDias P dataRef i (fuel + 1) = tentaDias P dataRef (i + 1) fuel := by
  rw [tentaDias_succ]
  cases hp : P (subDays dataRef i) with
  | error e => rfl
  | ok df =>
    have h' : (fechamentos df).isEmpty = true := by
      rw [hp] at h
      exact h
    have hfe : fechamentos df = [] := List.isEmpty_iff.mp h'
    simp [hfe]

theorem tentaDias_acha (P : Provider) (dataRef : Date) (i fuel : ℕ)
    (df : List Boletim) (b : Boletim)
    (hp : P (subDays dataRef i) = .ok df)
    (hb : (fechamentos df).getLast? = some b) :
    tentaDias P dataRef i (fuel + 1) =
      (Val.num b.cotacaoVenda, formatarDMY (subDays dataRef i)) := by
  have hdf : df.isEmpty = false := by
    cases df with
    | nil => simp [fechamentos] at hb
    | cons x xs => rfl
  rw [tentaDias_succ, hp]
  simp [hdf, hb]

theorem sucesso_dia (P : Provider) (dataRef : Date) (i : ℕ)
    (hs : semFechamento (P (subDays dataRef i)) = false) :
    ∃ df b, P (subDays dataRef i) = .ok df ∧ (fechamentos df).getLast? = some b := by
  cases hp : P (subDays dataRef i) with
  | error e =>
    rw [hp] at hs
    simp [semFechamento] at hs
  | ok df =>
    rw [hp] at hs
    have hs' : (fechamentos df).isEmpty = false := hs
    have hne : fechamentos df ≠ [] := by
      intro h0
      rw [h0] at hs'
      simp at hs'
    obtain ⟨b, hb⟩ := getLast?_de_nao_nil (fechamentos df) hne
    exact ⟨df, b, rfl, hb⟩

theorem tentaDias_indisponivel_iff (P : Provider) (dataRef : Date) :
    ∀ fuel i, (tentaDias P dataRef i fuel = (Val.str "-", "-")) ↔
      ∀ j, j < fuel → semFechamento (P (subDays dataRef (i + j))) = true := by
  intro fuel
  induction fuel with
  | zero =>
    intro i
    constructor
    · intro _ j hj
      omega
    · intro _
      rfl
  | succ f ih =>
    intro i
    by_cases hs : semFechamento (P (subDays dataRef i)) = true
    · rw [tentaDias_passo P dataRef i f hs, ih (i + 1)]
      constructor
      · intro hall j hj
        cases j with
        | zero => simpa using hs
        | succ k =>
          have hk := hall k (by omega)
          have harg : i + (k + 1) = (i + 1) + k := by omega
          rw [harg]
          exact hk
      · intro hall j hj
        have hk := hall (j + 1) (by omega)
        have harg : (i + 1) + j = i + (j + 1) := by omega
        rw [harg]
        exact hk
    · have hsf : semFechamento (P (subDays dataRef i)) = false := by
        cases hx : semFechamento (P (subDays dataRef i)) with
        | false => rfl
        | true => exact absurd hx hs
      obtain ⟨df, b, hdf, hb⟩ := sucesso_dia P dataRef i hsf
      rw [tentaDias_acha P dataRef i f df b hdf hb]
      constructor
      · intro hcontra
        exact absurd hcontra (by simp)
      · intro hall
        have h0 := hall 0 (by omega)
        rw [show i + 0 = i from rfl] at h0
        rw [h0] at hsf
        exact absurd hsf (by simp)

theorem tentaDias_formas (P : Provider) (dataRef : Date) :
    ∀ fuel i, tentaDias P dataRef i fuel = (Val.str "-", "-") ∨
      ∃ q j, j < fuel ∧
        tentaDias P dataRef i fuel = (Val.num q, formatarDMY (subDays dataRef (i + j))) := by
  intro fuel
  induction fuel with
  | zero =>
    intro i
    left
    rfl
  | succ f ih =>
    intro i
    by_cases hs : semFechamento (P (subDays dataRef i)) = true
    · have hstep := tentaDias_passo P dataRef i f hs
      rcases ih (i + 1) with h | ⟨q, j, hj, he⟩
      · left
        rw [hstep]
        exact h
      · right
        refine ⟨q, j + 1, by omega, ?_⟩
        rw [hstep, show i + (j + 1) = (i + 1) + j from by omega]
        exact he
    · have hsf : semFechamento (P (subDays dataRef i)) = false := by
        cases hx : semFechamento (P (subDays dataRef i)) with
        | false => rfl
        | true => exact absurd hx hs
      obtain ⟨df, b, hdf, hb⟩ := sucesso_dia P dataRef i hsf
      right
      refine ⟨b.cotacaoVenda, 0, by omega, ?_⟩
      rw [tentaDias_acha P dataRef i f df b hdf hb, show i + 0 = i from rfl]

/-! ## Claims C3, C6, C10 -/

/-- Claim C3: when the reference date and the two days before it yield no
closing quotation but the day 3 calendar days earlier does, the lookup
walks backward day by day, stops at that earlier day, takes the last
closing record of that day, and returns its sell rate together with that
earlier day (formatted `DD/MM/YYYY`) as the quotation date used. -/
theorem c3_busca_retroativa :
    ∀ (moeda : String) (dataRef : Date) (P : Provider) (df : List Boletim) (b : Boletim),
    moeda ≠ "BRL" → moeda ≠ "XDR" →
    semFechamento (P (subDays dataRef 0)) = true →
    semFechamento (P (subDays dataRef 1)) = true →
    semFechamento (P (subDays dataRef 2)) = true →
    P (subDays dataRef 3) = .ok df →
    (fechamentos df).getLast? = some b →
    cotacao_bacen moeda dataRef P =
      (Val.num b.cotacaoVenda, formatarDMY (subDays dataRef 3)) := by
  intro moeda dataRef P df b h1 h2 s0 s1 s2 hp hb
  unfold cotacao_bacen
  rw [if_neg (by simp [h1]), if_neg (by simp [h2])]
  have e0 : tentaDias P dataRef 0 5 = tentaDias P dataRef 1 4 :=
    tentaDias_passo P dataRef 0 4 s0
  have e1 : tentaDias P dataRef 1 4 = tentaDias P dataRef 2 3 :=
    tentaDias_passo P dataRef 1 3 s1
  have e2 : tentaDias P dataRef 2 3 = tentaDias P dataRef 3 2 :=
    tentaDias_passo P dataRef 2 2 s2
  have e3 : tentaDias P dataRef 3 2 =
      (Val.num b.cotacaoVenda, formatarDMY (subDays dataRef 3)) :=
    tentaDias_acha P dataRef 3 1 df b hp hb
  rw [e0, e1, e2, e3]

/-- Witness for C3: reference date February 28 2025, provider publishing
a single closing record (sell rate 5) only on February 25 2025. -/
theorem c3_busca_retroativa_witness :
    ("USD" : String) ≠ "BRL" ∧ ("USD" : String) ≠ "XDR" ∧
    semFechamento (Pdia3 (subDays ⟨2025, 2, 28⟩ 0)) = true ∧
    semFechamento (Pdia3 (subDays ⟨2025, 2, 28⟩ 1)) = true ∧
    semFechamento (Pdia3 (subDays ⟨2025, 2, 28⟩ 2)) = true ∧
    Pdia3 (subDays ⟨2025, 2, 28⟩ 3) = .ok [⟨"Fechamento PTAX", 5⟩] ∧
    (fechamentos [⟨"Fechamento PTAX", 5⟩]).getLast? = some ⟨"Fechamento PTAX", 5⟩ ∧
    cotacao_bacen "USD" ⟨2025, 2, 28⟩ Pdia3 =
      (Val.num 5, formatarDMY (subDays ⟨2025, 2, 28⟩ 3)) :=
  ⟨by decide, by decide, by decide, by decide, by decide, rfl, rfl,
    c3_busca_retroativa "USD" ⟨2025, 2, 28⟩ Pdia3 [⟨"Fechamento PTAX", 5⟩]
      ⟨"Fechamento PTAX", 5⟩ (by decide) (by decide) (by decide) (by decide)
      (by decide) rfl rfl⟩

/-- Claim C6: for a currency other than BRL and XDR, provider errors on
attempted days are absorbed (an error day counts as a day without closing
quotation and the loop continues), and the lookup returns the unavailable
result `("-", "-")` precisely when all 5 attempted days yield no closing
quotation; it never propagates an exception (the embedding is total). -/
theorem c6_indisponivel_iff :
    ∀ (moeda : String) (dataRef : Date) (P : Provider),
    moeda ≠ "BRL" → moeda ≠ "XDR" →
    (cotacao_bacen moeda dataRef P = (Val.str "-", "-") ↔
      ∀ i, i < 5 → semFechamento (P (subDays dataRef i)) = true) := by
  intro moeda dataRef P h1 h2
  unfold cotacao_bacen
  rw [if_neg (by simp [h1]), if_neg (by simp [h2])]
  have h := tentaDias_indisponivel_iff P dataRef 5 0
  simpa using h

/-- Witness for C6: a provider erroring on every day makes the EUR lookup
return the unavailable result. -/
theorem c6_indisponivel_iff_witness :
    ("EUR" : String) ≠ "BRL" ∧ ("EUR" : String) ≠ "XDR" ∧
    cotacao_bacen "EUR" ⟨2025, 2, 28⟩ Pfalha = (Val.str "-", "-") :=
  ⟨by decide, by decide,
    (c6_indisponivel_iff "EUR" ⟨2025, 2, 28⟩ Pfalha (by decide) (by decide)).mpr
      (fun _ _ => rfl)⟩

/-- Claim C10: for every currency string and every well-formed date, the
lookup terminates without raising (it is a total function of the absorbed
provider responses) and its result has exactly one of the four shapes:
`(1.0, "")`, `("Sem cotação", "-")`, a numeric rate with a `DD/MM/YYYY`
date of one of the 5 attempted days, or `("-", "-")`. -/
theorem c10_formas :
    ∀ (moeda : String) (dataRef : Date) (P : Provider), ValidDate dataRef →
    cotacao_bacen moeda dataRef P = (Val.num 1, "") ∨
    cotacao_bacen moeda dataRef P = (Val.str "Sem cotação", "-") ∨
    (∃ q i, i < 5 ∧
      cotacao_bacen moeda dataRef P = (Val.num q, formatarDMY (subDays dataRef i))) ∨
    cotacao_bacen moeda dataRef P = (Val.str "-", "-") := by
  intro moeda dataRef P _
  unfold cotacao_bacen
  by_cases h1 : (moeda == "BRL") = true
  · rw [if_pos h1]
    left
    rfl
  · rw [if_neg h1]
    by_cases h2 : (moeda == "XDR") = true
    · rw [if_pos h2]
      right
      left
      rfl
    · rw [if_neg h2]
      rcases tentaDias_formas P dataRef 5 0 with h | ⟨q, j, hj, he⟩
      · right
        right
        right
        exact h
      · right
        right
        left
        refine ⟨q, j, hj, ?_⟩
        rw [show (0 + j) = j from by omega] at he
        exact he

/-- Witness for C10 at USD, February 28 2025, all-error provider. -/
theorem c10_formas_witness :
    ValidDate ⟨2025, 2, 28⟩ ∧
    (cotacao_bacen "USD" ⟨2025, 2, 28⟩ Pfalha = (Val.num 1, "") ∨
     cotacao_bacen "USD" ⟨2025, 2, 28⟩ Pfalha = (Val.str "Sem cotação", "-") ∨
     (∃ q i, i < 5 ∧
       cotacao_bacen "USD" ⟨2025, 2, 28⟩ Pfalha =
         (Val.num q, formatarDMY (subDays ⟨2025, 2, 28⟩ i))) ∨
     cotacao_bacen "USD" ⟨2025, 2, 28⟩ Pfalha = (Val.str "-", "-")) :=
  ⟨by decide, c10_formas "USD" ⟨2025, 2, 28⟩ Pfalha (by decide)⟩

/-! ## Lemmas about the summary pipeline -/

theorem totalBRL_cons (l : Linha) (ls : List Linha) :
    totalBRL (l :: ls) =
      (if l.valorBRL == Val.str "-" then 0 else valToNum l.valorBRL) + totalBRL ls := by
  unfold totalBRL
  by_cases h : (l.valorBRL == Val.str "-") = true
  · simp [h]
  · simp [h]

theorem contrib_linha (P : Provider) (dataRef : Date) (nome : String) (valor : ℚ) :
    (match linhaResumo P dataRef nome valor with
     | none => (0 : ℚ)
     | some l => if l.valorBRL == Val.str "-" then 0 else valToNum l.valorBRL) =
    contribPair P dataRef nome valor := by
  unfold linhaResumo contribPair
  cases hk : MAPA_MOEDAS.lookup nome with
  | none => rfl
  | some codigo =>
    by_cases hs : (nome == "Direito Especial - SDR") = true
    · simp [hs]
    · cases hcot : (cotacao_bacen codigo dataRef P).1 with
      | num q => simp [hs, hcot, valToNum]
      | str s => simp [hs, hcot, valToNum]

theorem montar_total (P : Provider) (dataRef : Date) :
    ∀ prs : List (String × ℚ),
    totalBRL (montarLinhas P dataRef prs) =
      (prs.map (fun pr => contribPair P dataRef pr.1 pr.2)).sum := by
  intro prs
  induction prs with
  | nil => rfl
  | cons pr rest ih =>
    have hcontrib := contrib_linha P dataRef pr.1 pr.2
    cases hk : linhaResumo P dataRef pr.1 pr.2 with
    | none =>
      rw [hk] at hcontrib
      simp only [montarLinhas, List.filterMap_cons, hk, List.map_cons, List.sum_cons,
        ← hcontrib, zero_add]
      simp only [montarLinhas] at ih
      exact ih
    | some l =>
      rw [hk] at hcontrib
      simp only [montarLinhas, List.filterMap_cons, hk, List.map_cons, List.sum_cons,
        ← hcontrib]
      rw [totalBRL_cons]
      simp only [montarLinhas] at ih
      rw [ih]

/-! ## Claims C2, C7, C8, C9 -/

/-- Claim C2, counterexample: one active USD loan of 100 with a provider
failing on all 5 attempted days produces a summary whose USD row has the
unavailable rate `"-"` yet `Valor em BRL` equal to the raw 100, and a
TOTAL of 100; the claim's TOTAL (excluding unavailable rows) is 0. -/
theorem c2_contraexemplo :
    processar_csv [⟨"Empréstimo ou financiamento", "Vigente", 100, "Dólar dos EUA"⟩]
        Pfalha ⟨2025, 4, 10, 0⟩ =
      some [⟨"Dólar dos EUA", Val.num 100, Val.str "-", "-", Val.num 100⟩,
        linhaTotal 100] ∧
    totalBRL [⟨"Dólar dos EUA", Val.num 100, Val.str "-", "-", Val.num 100⟩] = 100 ∧
    totalSegundoSpec [⟨"Dólar dos EUA", Val.num 100, Val.str "-", "-", Val.num 100⟩] = 0 ∧
    (100 : ℚ) ≠ 0 :=
  ⟨by with_unfolding_all rfl, by with_unfolding_all rfl, by with_unfolding_all rfl,
    by norm_num⟩

/-- Claim C2 (amended): the trailing TOTAL row's converted value equals
the sum, over the aggregated currencies, of: 0 for unmapped currencies
and for SDR (not-applicable), `valor × rate` for rows with a numeric
rate, and the RAW aggregated `valor` for rows whose rate is unavailable —
i.e. unavailable rows are included at their unconverted value, not
excluded. -/
theorem c2_total_emendado :
    ∀ (registros : List Registro) (P : Provider) (hoje : DateTime) (linhas : List Linha),
    processar_csv registros P hoje = some linhas →
    linhas.getLast? = some (linhaTotal (totalBRL linhas.dropLast)) ∧
    totalBRL linhas.dropLast =
      ((agrupar (registros.filter filtro)).map
        (fun pr => contribPair P (data_cotacao hoje) pr.1 pr.2)).sum := by
  intro regs P hoje linhas h
  unfold processar_csv at h
  by_cases he : (regs.filter filtro).isEmpty = true
  · rw [if_pos he] at h
    cases h
  · rw [if_neg he] at h
    injection h with h
    subst h
    rw [List.dropLast_concat, List.getLast?_concat]
    exact ⟨rfl, montar_total P (data_cotacao hoje) (agrupar (regs.filter filtro))⟩

/-- Witness for the amended C2 at the counterexample input. -/
theorem c2_total_emendado_witness :
    processar_csv [⟨"Empréstimo ou financiamento", "Vigente", 100, "Dólar dos EUA"⟩]
        Pfalha ⟨2025, 4, 10, 0⟩ =
      some [⟨"Dólar dos EUA", Val.num 100, Val.str "-", "-", Val.num 100⟩,
        linhaTotal 100] ∧
    (([⟨"Dólar dos EUA", Val.num 100, Val.str "-", "-", Val.num 100⟩,
        linhaTotal 100] : List Linha).getLast? =
      some (linhaTotal (totalBRL
        ([⟨"Dólar dos EUA", Val.num 100, Val.str "-", "-", Val.num 100⟩,
          linhaTotal 100] : List Linha).dropLast)) ∧
     totalBRL ([⟨"Dólar dos EUA", Val.num 100, Val.str "-", "-", Val.num 100⟩,
          linhaTotal 100] : List Linha).dropLast =
       ((agrupar (([⟨"Empréstimo ou financiamento", "Vigente", 100,
            "Dólar dos EUA"⟩] : List Registro).filter filtro)).map
         (fun pr => contribPair Pfalha (data_cotacao ⟨2025, 4, 10, 0⟩) pr.1 pr.2)).sum) :=
  ⟨by with_unfolding_all rfl,
    c2_total_emendado [⟨"Empréstimo ou financiamento", "Vigente", 100, "Dólar dos EUA"⟩]
      Pfalha ⟨2025, 4, 10, 0⟩
      [⟨"Dólar dos EUA", Val.num 100, Val.str "-", "-", Val.num 100⟩, linhaTotal 100]
      (by with_unfolding_all rfl)⟩

/-- Claim C7: the BRL lookup returns rate 1.0 with an empty quotation
date for EVERY provider (so no external call can influence it), and the
summary row built for the local currency `Real` carries rate 1 and a
converted value equal to the aggregated value. -/
theorem c7_brl :
    ∀ (dataRef : Date) (P : Provider) (valor : ℚ),
    cotacao_bacen "BRL" dataRef P = (Val.num 1, "") ∧
    linhaResumo P dataRef "Real" valor =
      some ⟨"Real", Val.num valor, Val.num 1, "", Val.num valor⟩ := by
  intro dataRef P valor
  refine ⟨rfl, ?_⟩
  have h : linhaResumo P dataRef "Real" valor =
      some ⟨"Real", Val.num valor, Val.num 1, "", Val.num (valor * 1)⟩ := rfl
  rw [h, mul_one]

/-- Claim C8: when no input record satisfies the filter (matching type,
matching status, positive disbursement value), `processar_csv` returns
the empty-signal `none` — the pipeline's halt branch — and no summary
table is produced. -/
theorem c8_vazio :
    ∀ (registros : List Registro) (P : Provider) (hoje : DateTime),
    (∀ r ∈ registros, filtro r = false) →
    processar_csv registros P hoje = none := by
  intro regs P hoje hall
  have hnil : regs.filter filtro = [] := by
    rw [List.filter_eq_nil_iff]
    intro r hr
    rw [hall r hr]
    simp
  unfold processar_csv
  rw [hnil]
  rfl

/-- Witness for C8: a record of the wrong type and a matching-type record
with value 0 both fail the filter, so the pipeline halts with `none`. -/
theorem c8_vazio_witness :
    (∀ r ∈ ([⟨"Outro tipo", "Vigente", 100, "Real"⟩,
        ⟨"Empréstimo ou financiamento", "Vigente", 0, "Real"⟩] : List Registro),
      filtro r = false) ∧
    processar_csv [⟨"Outro tipo", "Vigente", 100, "Real"⟩,
        ⟨"Empréstimo ou financiamento", "Vigente", 0, "Real"⟩] Pfalha ⟨2025, 4, 10, 0⟩ =
      none :=
  ⟨by decide,
    c8_vazio [⟨"Outro tipo", "Vigente", 100, "Real"⟩,
      ⟨"Empréstimo ou financiamento", "Vigente", 0, "Real"⟩] Pfalha ⟨2025, 4, 10, 0⟩
      (by decide)⟩

/-- Claim C9: the aggregation mapping (filter, then group by currency
name, then sum the disbursement values) is invariant under permutation of
the input records. -/
theorem c9_permutacao :
    ∀ (l1 l2 : List Registro), l1.Perm l2 →
    ∀ nome, agregar l1 nome = agregar l2 nome := by
  intro l1 l2 h nome
  unfold agregar somaMoeda
  exact List.Perm.sum_eq (List.Perm.map _ (List.Perm.filter _ (List.Perm.filter _ h)))

/-- Witness for C9: swapping two USD loan records leaves the USD sum
unchanged. -/
theorem c9_permutacao_witness :
    ([⟨"Empréstimo ou financiamento", "Vigente", 1, "Dólar dos EUA"⟩,
      ⟨"Empréstimo ou financiamento", "Vigente", 2, "Dólar dos EUA"⟩] :
        List Registro).Perm
      [⟨"Empréstimo ou financiamento", "Vigente", 2, "Dólar dos EUA"⟩,
       ⟨"Empréstimo ou financiamento", "Vigente", 1, "Dólar dos EUA"⟩] ∧
    agregar [⟨"Empréstimo ou financiamento", "Vigente", 1, "Dólar dos EUA"⟩,
        ⟨"Empréstimo ou financiamento", "Vigente", 2, "Dólar dos EUA"⟩] "Dólar dos EUA" =
      agregar [⟨"Empréstimo ou financiamento", "Vigente", 2, "Dólar dos EUA"⟩,
        ⟨"Empréstimo ou financiamento", "Vigente", 1, "Dólar dos EUA"⟩] "Dólar dos EUA" :=
  ⟨List.Perm.swap _ _ _,
    c9_permutacao _ _ (List.Perm.swap _ _ _) "Dólar dos EUA"⟩
